import Mathlib

/-!
Verification development for the Mission Control static file server
(`src/server/load.py`).

The program is a thin subclass of Python's
`http.server.SimpleHTTPRequestHandler`:

* `MissionControlHandler.end_headers` appends four fixed CORS / cache
  headers to every response;
* `MissionControlHandler.do_GET` rewrites the request path `/` to
  `/src/html/index.html` and otherwise delegates to the library;
* `main` binds a TCP listener on port 8000, prints a banner, serves
  until a keyboard interrupt, then prints a shutdown message and exits
  with status 0.

The library behaviour the handler inherits (path translation, directory
handling, error pages, method dispatch) is embedded below following the
CPython implementation of `SimpleHTTPRequestHandler` /
`BaseHTTPRequestHandler`, since the repository's behaviour is the
composition of the subclass with that library code.  Byte strings are
modelled as Lean `String`s, the filesystem as an explicit finite map
from absolute path-segment lists to file contents and directories.
Environment-dependent response headers (`Server:`, `Date:`) and the
`If-Modified-Since` conditional branch are omitted from the model.
-/

/-- An HTTP response: status code, header list (in emission order) and body.
Bodies and file contents are modelled as strings of bytes. -/
structure Response where
  status : Nat
  headers : List (String × String)
  body : String
deriving DecidableEq

/-- An HTTP request as seen by the handler: the method (`command` in
CPython) and the raw request target (`self.path`), which still includes
any query string or fragment. -/
structure Request where
  method : String
  path : String
deriving DecidableEq

/-- A snapshot of the host filesystem: regular files (absolute path given
as a list of name segments, mapped to their byte contents) and
directories (absolute segment lists).  The server's root directory is
itself a segment list; everything is absolute so that paths outside the
root are representable. -/
structure FileSystem where
  files : List (List String × String)
  dirs : List (List String)

/-- Contents of the regular file at `p`, if one exists (models a
successful `open(path, rb)`). -/
def FileSystem.file? (fs : FileSystem) (p : List String) : Option String :=
  (fs.files.find? (fun e => decide (e.1 = p))).map (fun e => e.2)

/-- Models `os.path.isfile`. -/
def FileSystem.isFile (fs : FileSystem) (p : List String) : Bool :=
  (fs.file? p).isSome

/-- Models `os.path.isdir`. -/
def FileSystem.isDir (fs : FileSystem) (p : List String) : Bool :=
  fs.dirs.contains p

/-- Names of the immediate children of directory `p` (models
`os.scandir` as used by `list_directory`). -/
def FileSystem.listDir (fs : FileSystem) (p : List String) : List String :=
  (fs.files.filterMap
    (fun e =>
      if (e.1.length == p.length + 1) && p.isPrefixOf e.1 then e.1.getLast? else none))
    ++
  (fs.dirs.filterMap
    (fun d =>
      if (d.length == p.length + 1) && p.isPrefixOf d then d.getLast? else none))

/-- The four fixed augmentation headers added by
`MissionControlHandler.end_headers`, in the order the source sends them
(`load.py` lines 23-29). -/
def corsHeaders : List (String × String) :=
  [("Access-Control-Allow-Origin", "*"),
   ("Access-Control-Allow-Methods", "GET, OPTIONS"),
   ("Access-Control-Allow-Headers", "Content-Type"),
   ("Cache-Control", "no-store, no-cache, must-revalidate")]

/-- Models the `end_headers` override: the headers already queued by the
handler are followed by the four fixed headers, then flushed.  Every
response the handler produces goes through this function. -/
def end_headers (hs : List (String × String)) : List (String × String) :=
  hs ++ corsHeaders

/-- Build a response whose header block is finished by `end_headers`. -/
def mkResponse (status : Nat) (hs : List (String × String)) (body : String) : Response :=
  { status := status, headers := end_headers hs, body := body }

/-- The HTML error page generated by `BaseHTTPRequestHandler.send_error`
(the exact template is abbreviated; the page carries the code and the
message, and CPython's `%r` quoting of the method name is rendered
without quote characters). -/
def errorBody (code : Nat) (message : String) : String :=
  "<!DOCTYPE HTML><html><head><title>Error response</title></head><body><h1>Error response</h1><p>Error code: "
    ++ toString code ++ "</p><p>Message: " ++ message ++ ".</p></body></html>"

/-- Models `BaseHTTPRequestHandler.send_error`: an error status with an
HTML diagnostic body; its headers are flushed through `end_headers`, so
the CORS set is appended here too. -/
def send_error (code : Nat) (message : String) : Response :=
  mkResponse code
    [("Content-Type", "text/html;charset=utf-8"),
     ("Content-Length", toString (errorBody code message).length)]
    (errorBody code message)

/-- Models the first two lines of `SimpleHTTPRequestHandler.translate_path`:
discard everything from the first `?` on, then everything from the
first `#` on. -/
def stripQueryFrag (p : String) : String :=
  ⟨(p.data.takeWhile (fun c => c != '?')).takeWhile (fun c => c != '#')⟩

/-- Value of a hexadecimal digit, as accepted by `urllib.parse.unquote`. -/
def hexVal (c : Char) : Option Nat :=
  if '0' ≤ c ∧ c ≤ '9' then some (c.toNat - 48)
  else if 'a' ≤ c ∧ c ≤ 'f' then some (c.toNat - 87)
  else if 'A' ≤ c ∧ c ≤ 'F' then some (c.toNat - 55)
  else none

/-- Percent-decoding of the character stream (models
`urllib.parse.unquote`; multi-byte UTF-8 sequences are modelled one
byte-character at a time). -/
def percentDecodeAux : List Char → List Char
  | [] => []
  | '%' :: a :: b :: rest =>
    match hexVal a, hexVal b with
    | some x, some y => Char.ofNat (16 * x + y) :: percentDecodeAux rest
    | _, _ => '%' :: percentDecodeAux (a :: b :: rest)
  | c :: rest => c :: percentDecodeAux rest

/-- Percent-decoding on strings. -/
def percentDecode (s : String) : String :=
  ⟨percentDecodeAux s.data⟩

/-- Split a character list at every `/` (models Python's
`str.split(sep)`, which keeps empty pieces). -/
def splitSlashAux (cur : List Char) : List Char → List (List Char)
  | [] => [cur.reverse]
  | c :: rest =>
    if c = '/' then cur.reverse :: splitSlashAux [] rest
    else splitSlashAux (c :: cur) rest

/-- Split at `/`, as `path.split("/")` does. -/
def splitSlash (cs : List Char) : List (List Char) :=
  splitSlashAux [] cs

/-- The component loop of `posixpath.normpath`: drop empty and `.`
components, and let `..` cancel a preceding real component (a `..` at
the root of an absolute path is dropped; on a relative path leading
`..` components are kept). -/
def normpathFold (initialSlashes : Bool) (comps : List String) : List String :=
  comps.foldl
    (fun newComps comp =>
      if comp = "" ∨ comp = "." then newComps
      else if comp ≠ ".."
          ∨ (initialSlashes = false ∧ newComps = [])
          ∨ newComps.getLast? = some ".." then
        newComps ++ [comp]
      else newComps.dropLast)
    []

/-- Models `posixpath.normpath` (the POSIX double-leading-slash special
case only changes the number of leading slashes, which the subsequent
re-split in `translate_path` erases, so a single slash is kept). -/
def normpath (p : String) : String :=
  if p = "" then "."
  else
    let initialSlashes := p.data.head? == some '/'
    let comps := (splitSlash p.data).map (fun l => (⟨l⟩ : String))
    let newComps := normpathFold initialSlashes comps
    let joined := String.intercalate "/" newComps
    let res := if initialSlashes then "/" ++ joined else joined
    if res = "" then "." else res

/-- The word list of `translate_path`: strip query and fragment,
percent-decode, normalise, split at `/` and drop empty words.  (After
splitting at `/` no word can contain a separator, so Python's
`os.path.dirname(word)` guard never fires and is not modelled.) -/
def pathWords (p : String) : List String :=
  ((splitSlash (normpath (percentDecode (stripQueryFrag p))).data).map
      (fun l => (⟨l⟩ : String))).filter (fun w => w != "")

/-- Models `SimpleHTTPRequestHandler.translate_path` with root directory
`dir`: the resulting absolute path (as segments appended to `dir`,
skipping `.` and `..` words exactly as the CPython loop does) together
with the trailing-slash flag the library remembers (Python computes it
with `rstrip`; trailing whitespace is not modelled). -/
def translate_path (dir : List String) (p : String) : List String × Bool :=
  ((pathWords p).foldl
      (fun acc w => if w = "." ∨ w = ".." then acc else acc ++ [w]) dir,
   (stripQueryFrag p).data.getLast? == some '/')

/-- Suffix of the character list from its last `.` (inclusive), if any. -/
def lastExtAux : List Char → Option (List Char)
  | [] => none
  | c :: rest =>
    match lastExtAux rest with
    | some e => some e
    | none => if c = '.' then some ('.' :: rest) else none

/-- The file-name extension used for content-type guessing (models
`posixpath.splitext`; files whose only dot is the leading one are not
exercised here and are treated as having that suffix as extension). -/
def lastExt (name : String) : String :=
  match lastExtAux name.data with
  | some e => ⟨e⟩
  | none => ""

/-- Models `SimpleHTTPRequestHandler.guess_type`: a fixed
extension-to-content-type table with `application/octet-stream` as the
default. -/
def guess_type (name : String) : String :=
  let ext := (lastExt name).toLower
  if ext = ".html" ∨ ext = ".htm" then "text/html"
  else if ext = ".js" ∨ ext = ".mjs" then "text/javascript"
  else if ext = ".css" then "text/css"
  else if ext = ".json" then "application/json"
  else if ext = ".png" then "image/png"
  else if ext = ".jpg" ∨ ext = ".jpeg" then "image/jpeg"
  else if ext = ".gif" then "image/gif"
  else if ext = ".svg" then "image/svg+xml"
  else if ext = ".txt" then "text/plain"
  else "application/octet-stream"

/-- Serve the regular file at `segs`: status 200 with guessed
content type, exact content length and the file bytes as body, or the
library's 404 error page when `open` fails (models the tail of
`send_head` together with `do_GET`'s `copyfile`). -/
def serveFile (fs : FileSystem) (segs : List String) : Response :=
  match fs.file? segs with
  | some content =>
    mkResponse 200
      [("Content-type", guess_type (segs.getLastD "")),
       ("Content-Length", toString content.length)]
      content
  | none => send_error 404 "File not found"

/-- The generated directory-listing page of
`SimpleHTTPRequestHandler.list_directory` (template abbreviated; the
page enumerates the directory entries). -/
def listingBody (entries : List String) : String :=
  "<!DOCTYPE HTML><html><head><title>Directory listing</title></head><body><h1>Directory listing</h1><ul>"
    ++ String.join (entries.map (fun e => "<li>" ++ e ++ "</li>"))
    ++ "</ul></body></html>"

/-- Models `list_directory`: a 200 response carrying the listing page. -/
def list_directory (fs : FileSystem) (segs : List String) : Response :=
  mkResponse 200
    [("Content-type", "text/html; charset=utf-8"),
     ("Content-Length", toString (listingBody (fs.listDir segs)).length)]
    (listingBody (fs.listDir segs))

/-- The `Location` value of the directory redirect in `send_head`: a `/`
is inserted at the end of the path part, before any query string
(fragment handling is not distinguished from the query here). -/
def redirectLocation (p : String) : String :=
  (⟨p.data.takeWhile (fun c => c != '?')⟩ : String) ++ "/"
    ++ (⟨p.data.dropWhile (fun c => c != '?')⟩ : String)

/-- Models `SimpleHTTPRequestHandler.send_head` (composed with the body
copy of the library `do_GET`): translate the path; a directory without
trailing slash is redirected with 301; a directory with trailing slash
is served through `index.html` / `index.htm` or listed; a non-directory
path with trailing slash is 404; otherwise the file is opened and
served, a failing open giving 404. -/
def send_head (fs : FileSystem) (dir : List String) (p : String) : Response :=
  if fs.isDir (translate_path dir p).1 then
    if (translate_path dir p).2 then
      if fs.isFile ((translate_path dir p).1 ++ ["index.html"]) then
        serveFile fs ((translate_path dir p).1 ++ ["index.html"])
      else if fs.isFile ((translate_path dir p).1 ++ ["index.htm"]) then
        serveFile fs ((translate_path dir p).1 ++ ["index.htm"])
      else list_directory fs (translate_path dir p).1
    else
      mkResponse 301 [("Location", redirectLocation p), ("Content-Length", "0")] ""
  else if (translate_path dir p).2 then send_error 404 "File not found"
  else serveFile fs (translate_path dir p).1

/-- The path rewrite of `MissionControlHandler.do_GET` (`load.py` lines
31-35): the raw request target `/` becomes `/src/html/index.html`;
every other target is left untouched. -/
def rewriteRoot (p : String) : String :=
  if p = "/" then "/src/html/index.html" else p

/-- Models `MissionControlHandler.do_GET`: rewrite the root path, then
delegate to the library GET handling. -/
def do_GET (fs : FileSystem) (dir : List String) (p : String) : Response :=
  send_head fs dir (rewriteRoot p)

/-- Models the inherited `SimpleHTTPRequestHandler.do_HEAD` (note: the
subclass rewrite applies only to GET). -/
def do_HEAD (fs : FileSystem) (dir : List String) (p : String) : Response :=
  { send_head fs dir p with body := "" }

/-- Models the method dispatch of
`BaseHTTPRequestHandler.handle_one_request`: the handler class defines
`do_GET` and inherits `do_HEAD`; any other method - `OPTIONS` included -
has no `do_`-handler and receives the 501 unsupported-method error. -/
def handleRequest (fs : FileSystem) (dir : List String) (req : Request) : Response :=
  if req.method = "GET" then do_GET fs dir req.path
  else if req.method = "HEAD" then do_HEAD fs dir req.path
  else send_error 501 ("Unsupported method (" ++ req.method ++ ")")

/-- The sequential accept loop of `serve_forever`: each accepted request
is handled on its own; `handleRequest` is total, mirroring the fact that
every per-request error of the library is terminated into an HTTP
response (and `socketserver`'s `handle_error` keeps the loop alive). -/
def serveAll (fs : FileSystem) (dir : List String) (reqs : List Request) : List Response :=
  reqs.map (handleRequest fs dir)

/-- The fixed port from `load.py`. -/
def PORT : Nat := 8000

/-- The startup banner printed by `main` after a successful bind. -/
def startupBanner (dir : List String) : List String :=
  ["Mission Control Server Starting...",
   "Serving from: /" ++ String.intercalate "/" dir,
   "Server running at: http://localhost:" ++ toString PORT,
   "Press Ctrl+C to stop the server"]

/-- Outcome of one complete run of the process. -/
structure RunResult where
  exitCode : Nat
  output : List String
  enteredAcceptLoop : Bool
  socketClosed : Bool
  responses : List Response
deriving DecidableEq

/-- Models `main` for a terminating run.  `bindOk` says whether binding
port 8000 succeeds; `reqs` are the requests accepted before the
operator's keyboard interrupt.  On a failed bind the `OSError` escapes
`main` uncaught, so the interpreter prints the traceback diagnostic and
exits with status 1 before any request is accepted.  On an interrupt
the `except KeyboardInterrupt` branch prints the shutdown message and
calls `sys.exit(0)`; the `with` block closes the listening socket on
the way out. -/
def runMain (bindOk : Bool) (dir : List String) (fs : FileSystem) (reqs : List Request) : RunResult :=
  if bindOk then
    { exitCode := 0,
      output := startupBanner dir ++ ["\n\nShutting down server..."],
      enteredAcceptLoop := true,
      socketClosed := true,
      responses := serveAll fs dir reqs }
  else
    { exitCode := 1,
      output := ["OSError: [Errno 98] Address already in use"],
      enteredAcceptLoop := false,
      socketClosed := true,
      responses := [] }

/-- A sample root directory used to instantiate the theorems: the server
root is `/srv/app`. -/
def exampleRoot : List String := ["srv", "app"]

/-- A sample filesystem: the configured index document and a text file
live under the root, a subdirectory `data` exists, and a secret file
lives outside the root. -/
def exampleFS : FileSystem :=
  { files :=
      [(["srv", "app", "src", "html", "index.html"], "<h1>ok</h1>"),
       (["srv", "app", "a.txt"], "hello"),
       (["srv", "secret.txt"], "TOPSECRET")],
    dirs :=
      [["srv"], ["srv", "app"], ["srv", "app", "src"],
       ["srv", "app", "src", "html"], ["srv", "app", "data"]] }

/-! ### Helper lemmas -/

/-- The word-folding loop of `translate_path` only ever appends words to
the accumulator, so the accumulator is a prefix of the result. -/
theorem foldl_words_keeps_acc (ws : List String) :
    ∀ acc : List String,
      acc <+: ws.foldl (fun a w => if w = "." ∨ w = ".." then a else a ++ [w]) acc := by
  induction ws with
  | nil => intro acc; exact List.prefix_rfl
  | cons w ws ih =>
    intro acc
    rw [List.foldl_cons]
    refine List.IsPrefix.trans ?_ (ih _)
    by_cases h : w = "." ∨ w = ".."
    · rw [if_pos h]
    · rw [if_neg h]
      exact List.prefix_append acc [w]

/-- The root directory is a prefix of every translated path: the filter
loop of `translate_path` drops every `.` and `..` word, so no request
can resolve above the root. -/
theorem translate_keeps_root (dir : List String) (p : String) :
    dir <+: (translate_path dir p).1 :=
  foldl_words_keeps_acc (pathWords p) dir

/-- A response whose header block ends with the four fixed augmentation
headers, as produced by the `end_headers` override. -/
def hasCors (r : Response) : Prop :=
  ∃ extra, r.headers = extra ++ corsHeaders

theorem serveFile_hasCors (fs : FileSystem) (segs : List String) :
    hasCors (serveFile fs segs) := by
  unfold serveFile
  cases fs.file? segs
  · exact ⟨_, rfl⟩
  · exact ⟨_, rfl⟩

theorem send_head_hasCors (fs : FileSystem) (dir : List String) (p : String) :
    hasCors (send_head fs dir p) := by
  unfold send_head
  split
  · split
    · split
      · exact serveFile_hasCors _ _
      · split
        · exact serveFile_hasCors _ _
        · exact ⟨_, rfl⟩
    · exact ⟨_, rfl⟩
  · split
    · exact ⟨_, rfl⟩
    · exact serveFile_hasCors _ _

theorem handleRequest_hasCors (fs : FileSystem) (dir : List String) (req : Request) :
    hasCors (handleRequest fs dir req) := by
  unfold handleRequest do_GET do_HEAD
  split
  · exact send_head_hasCors _ _ _
  · split
    · obtain ⟨e, he⟩ := send_head_hasCors fs dir req.path
      exact ⟨e, he⟩
    · exact ⟨_, rfl⟩

/-- Two filesystems that agree on every path below the root produce the
same reply for every request: the handler never reads outside the root. -/
def agreeUnder (dir : List String) (fs fs' : FileSystem) : Prop :=
  ∀ q, dir <+: q →
    fs.file? q = fs'.file? q ∧ fs.isDir q = fs'.isDir q ∧ fs.listDir q = fs'.listDir q

theorem serveFile_congr (fs fs' : FileSystem) (segs : List String)
    (h : fs.file? segs = fs'.file? segs) : serveFile fs segs = serveFile fs' segs := by
  unfold serveFile
  rw [h]

theorem list_directory_congr (fs fs' : FileSystem) (segs : List String)
    (h : fs.listDir segs = fs'.listDir segs) :
    list_directory fs segs = list_directory fs' segs := by
  unfold list_directory
  rw [h]

theorem send_head_congr (fs fs' : FileSystem) (dir : List String) (p : String)
    (h : agreeUnder dir fs fs') : send_head fs dir p = send_head fs' dir p := by
  have hroot := translate_keeps_root dir p
  obtain ⟨hf, hd, hl⟩ := h _ hroot
  obtain ⟨hfh, -, -⟩ := h _ (hroot.trans (List.prefix_append _ ["index.html"]))
  obtain ⟨hfm, -, -⟩ := h _ (hroot.trans (List.prefix_append _ ["index.htm"]))
  unfold send_head FileSystem.isFile
  rw [hd, hfh, hfm, serveFile_congr fs fs' _ hf, serveFile_congr fs fs' _ hfh,
    serveFile_congr fs fs' _ hfm, list_directory_congr fs fs' _ hl]

theorem handleRequest_congr (fs fs' : FileSystem) (dir : List String) (req : Request)
    (h : agreeUnder dir fs fs') : handleRequest fs dir req = handleRequest fs' dir req := by
  unfold handleRequest do_GET do_HEAD
  rw [send_head_congr fs fs' dir (rewriteRoot req.path) h,
    send_head_congr fs fs' dir req.path h]

/-- `translate_path` on the rewritten index path appends exactly the
segments `src`, `html`, `index.html` to the root, with no trailing
slash. -/
theorem translate_index_path (dir : List String) :
    translate_path dir "/src/html/index.html" = (dir ++ ["src", "html", "index.html"], false) := by
  have h : translate_path dir "/src/html/index.html"
      = (((dir ++ ["src"]) ++ ["html"]) ++ ["index.html"], false) := rfl
  rw [h]
  simp

/-! ### Claim theorems -/

/-- C1: every response the server sends - whatever the status code -
carries all four fixed augmentation headers, because every response's
header block is flushed through the overridden `end_headers`. -/
theorem cors_on_every_response (fs : FileSystem) (dir : List String) (req : Request) :
    ("Access-Control-Allow-Origin", "*") ∈ (handleRequest fs dir req).headers ∧
    ("Access-Control-Allow-Methods", "GET, OPTIONS") ∈ (handleRequest fs dir req).headers ∧
    ("Access-Control-Allow-Headers", "Content-Type") ∈ (handleRequest fs dir req).headers ∧
    ("Cache-Control", "no-store, no-cache, must-revalidate") ∈ (handleRequest fs dir req).headers := by
  obtain ⟨e, he⟩ := handleRequest_hasCors fs dir req
  rw [he]
  exact ⟨List.mem_append_right e (by decide), List.mem_append_right e (by decide),
    List.mem_append_right e (by decide), List.mem_append_right e (by decide)⟩

/-- C2: a GET for exactly `/` is rewritten to the fixed index document
path `/src/html/index.html` and answered with status 200 and the index
document's contents; any other GET target is handed to the library
file-serving logic unchanged. -/
theorem root_path_serves_index (fs : FileSystem) (dir : List String) (content : String)
    (hd : fs.isDir (dir ++ ["src", "html", "index.html"]) = false)
    (hf : fs.file? (dir ++ ["src", "html", "index.html"]) = some content) :
    (do_GET fs dir "/").status = 200 ∧ (do_GET fs dir "/").body = content ∧
    ∀ p, p ≠ "/" → do_GET fs dir p = send_head fs dir p := by
  have h2 : do_GET fs dir "/" = serveFile fs (dir ++ ["src", "html", "index.html"]) := by
    show send_head fs dir "/src/html/index.html" = _
    unfold send_head
    rw [translate_index_path]
    simp [hd]
  refine ⟨?_, ?_, ?_⟩
  · rw [h2]; unfold serveFile; rw [hf]; rfl
  · rw [h2]; unfold serveFile; rw [hf]; rfl
  · intro p hp
    unfold do_GET rewriteRoot
    rw [if_neg hp]

/-- C2 witness at the sample filesystem. -/
theorem root_path_serves_index_witness :
    (do_GET exampleFS exampleRoot "/").status = 200 ∧
    (do_GET exampleFS exampleRoot "/").body = "<h1>ok</h1>" := by
  have h := root_path_serves_index exampleFS exampleRoot "<h1>ok</h1>" (by decide) (by decide)
  exact ⟨h.1, h.2.1⟩

/-- C3 counterexample: for the GET target `/../a.txt` - a path that
attempts to escape the root via a parent segment - the library strips
the `..` word and serves `a.txt` from inside the root, so the status is
200, not the claimed client error 403/404 (the body is the in-root
file, so containment itself is not violated). -/
theorem traversal_not_client_error :
    (handleRequest exampleFS exampleRoot ⟨"GET", "/../a.txt"⟩).status = 200 ∧
    (handleRequest exampleFS exampleRoot ⟨"GET", "/../a.txt"⟩).body = "hello" := by
  constructor
  · decide
  · decide

/-- C3 (amended): the containment half of the claim holds - the
translated path always has the root as prefix, and two filesystems that
agree below the root are indistinguishable to the server, so no
response ever depends on (or can contain) a file outside the root.  The
status, however, need not be a client error: `..` segments are dropped,
not rejected. -/
theorem traversal_containment (fs fs' : FileSystem) (dir : List String) (req : Request)
    (h : agreeUnder dir fs fs') :
    dir <+: (translate_path dir (rewriteRoot req.path)).1 ∧
    handleRequest fs dir req = handleRequest fs' dir req :=
  ⟨translate_keeps_root dir _, handleRequest_congr fs fs' dir req h⟩

/-- C3 witness at a concrete traversal request. -/
theorem traversal_containment_witness :
    exampleRoot <+: (translate_path exampleRoot (rewriteRoot "/../secret.txt")).1 ∧
    handleRequest exampleFS exampleRoot ⟨"GET", "/../secret.txt"⟩ =
      handleRequest exampleFS exampleRoot ⟨"GET", "/../secret.txt"⟩ :=
  traversal_containment exampleFS exampleFS exampleRoot ⟨"GET", "/../secret.txt"⟩
    (fun _ _ => ⟨rfl, rfl, rfl⟩)

/-- C4: a request whose translated path is a readable regular file (not
a directory, no trailing slash) is answered with 200, a content type
guessed from the extension, the exact byte length, and the file's bytes
unchanged; the path lies under the root. -/
theorem file_served_exactly (fs : FileSystem) (dir : List String) (p : String) (content : String)
    (hd : fs.isDir (translate_path dir p).1 = false)
    (ht : (translate_path dir p).2 = false)
    (hf : fs.file? (translate_path dir p).1 = some content) :
    (send_head fs dir p).status = 200 ∧
    ("Content-type", guess_type ((translate_path dir p).1.getLastD ""))
      ∈ (send_head fs dir p).headers ∧
    ("Content-Length", toString content.length) ∈ (send_head fs dir p).headers ∧
    (send_head fs dir p).body = content ∧
    dir <+: (translate_path dir p).1 := by
  have hs : send_head fs dir p
      = mkResponse 200
          [("Content-type", guess_type ((translate_path dir p).1.getLastD "")),
           ("Content-Length", toString content.length)] content := by
    unfold send_head
    rw [hd, ht]
    simp only [Bool.false_eq_true, if_false]
    unfold serveFile
    rw [hf]
  rw [hs]
  refine ⟨rfl, ?_, ?_, rfl, translate_keeps_root dir p⟩
  · simp [mkResponse, end_headers]
  · simp [mkResponse, end_headers]

/-- C4 witness at the sample filesystem. -/
theorem file_served_exactly_witness :
    (send_head exampleFS exampleRoot "/a.txt").status = 200 ∧
    (send_head exampleFS exampleRoot "/a.txt").body = "hello" := by
  have h := file_served_exactly exampleFS exampleRoot "/a.txt" "hello"
    (by decide) (by decide) (by decide)
  exact ⟨h.1, h.2.2.2.1⟩

/-- C5 counterexample: a GET whose path resolves to an existing
directory (`/data`) is answered with a 301 redirect to the
slash-terminated path, not with the claimed 404. -/
theorem directory_not_404 :
    (handleRequest exampleFS exampleRoot ⟨"GET", "/data"⟩).status = 301 := by
  decide

/-- C5 (amended): a GET whose (possibly rewritten) path resolves neither
to a regular file nor to a directory is answered with status 404, the
library's short diagnostic body, and the CORS headers still present;
paths resolving to directories are instead redirected (no trailing
slash) or served as an index/listing. -/
theorem missing_file_404 (fs : FileSystem) (dir : List String) (p : String)
    (hd : fs.isDir (translate_path dir (rewriteRoot p)).1 = false)
    (hf : fs.file? (translate_path dir (rewriteRoot p)).1 = none) :
    (do_GET fs dir p).status = 404 ∧
    (do_GET fs dir p).body = errorBody 404 "File not found" ∧
    ("Access-Control-Allow-Origin", "*") ∈ (do_GET fs dir p).headers ∧
    ("Cache-Control", "no-store, no-cache, must-revalidate") ∈ (do_GET fs dir p).headers := by
  have key : do_GET fs dir p = send_error 404 "File not found" := by
    unfold do_GET send_head
    rw [hd]
    simp only [Bool.false_eq_true, if_false]
    by_cases ht : (translate_path dir (rewriteRoot p)).2 = true
    · rw [if_pos ht]
    · rw [if_neg ht]
      unfold serveFile
      rw [hf]
  rw [key]
  refine ⟨rfl, rfl, ?_, ?_⟩ <;> simp [send_error, mkResponse, end_headers, corsHeaders]

/-- C5 witness at a missing path. -/
theorem missing_file_404_witness :
    (do_GET exampleFS exampleRoot "/nope.txt").status = 404 ∧
    ("Access-Control-Allow-Origin", "*") ∈ (do_GET exampleFS exampleRoot "/nope.txt").headers := by
  have h := missing_file_404 exampleFS exampleRoot "/nope.txt" (by decide) (by decide)
  exact ⟨h.1, h.2.2.1⟩

/-- C6 counterexample: an OPTIONS request is answered with status 501,
not with the claimed 2xx - the handler class defines no `do_OPTIONS`
method, so the library's unsupported-method error fires. -/
theorem options_not_2xx :
    (handleRequest exampleFS exampleRoot ⟨"OPTIONS", "/"⟩).status = 501 := by
  decide

/-- C6 (amended): every OPTIONS request - to any path, over any
filesystem - receives the 501 unsupported-method error page; the fixed
CORS header set is still present on that response (the error path also
runs through the overridden `end_headers`). -/
theorem options_returns_501 (fs : FileSystem) (dir : List String) (p : String) :
    (handleRequest fs dir ⟨"OPTIONS", p⟩).status = 501 ∧
    (handleRequest fs dir ⟨"OPTIONS", p⟩).body
      = errorBody 501 "Unsupported method (OPTIONS)" ∧
    ("Access-Control-Allow-Origin", "*") ∈ (handleRequest fs dir ⟨"OPTIONS", p⟩).headers ∧
    ("Access-Control-Allow-Methods", "GET, OPTIONS") ∈ (handleRequest fs dir ⟨"OPTIONS", p⟩).headers ∧
    ("Access-Control-Allow-Headers", "Content-Type") ∈ (handleRequest fs dir ⟨"OPTIONS", p⟩).headers ∧
    ("Cache-Control", "no-store, no-cache, must-revalidate") ∈ (handleRequest fs dir ⟨"OPTIONS", p⟩).headers := by
  have key : handleRequest fs dir ⟨"OPTIONS", p⟩
      = send_error 501 "Unsupported method (OPTIONS)" := rfl
  rw [key]
  refine ⟨rfl, rfl, ?_, ?_, ?_, ?_⟩ <;> simp [send_error, mkResponse, end_headers, corsHeaders]

/-- C7: the accept loop handles each accepted request independently:
every request yields exactly one response, and the response at position
`i` is a function of request `i` alone - no per-request error can leak
into another request's handling or terminate the loop. -/
theorem accept_loop_isolation (fs : FileSystem) (dir : List String) (reqs : List Request) :
    (serveAll fs dir reqs).length = reqs.length ∧
    ∀ i, (serveAll fs dir reqs).get? i = (reqs.get? i).map (handleRequest fs dir) := by
  constructor
  · simp [serveAll]
  · intro i
    simp [serveAll, List.get?_map]

/-- C8: when binding the listening socket fails, the process exits with
the non-zero status 1 and a diagnostic message, without ever entering
the accept loop or serving a response. -/
theorem bind_failure_aborts (dir : List String) (fs : FileSystem) (reqs : List Request) :
    (runMain false dir fs reqs).exitCode = 1 ∧
    (runMain false dir fs reqs).enteredAcceptLoop = false ∧
    (runMain false dir fs reqs).responses = [] ∧
    (runMain false dir fs reqs).output = ["OSError: [Errno 98] Address already in use"] :=
  ⟨rfl, rfl, rfl, rfl⟩

/-- C9: a run interrupted while serving prints the shutdown message,
closes the listening socket and exits with status 0. -/
theorem interrupt_clean_shutdown (dir : List String) (fs : FileSystem) (reqs : List Request) :
    (runMain true dir fs reqs).exitCode = 0 ∧
    "\n\nShutting down server..." ∈ (runMain true dir fs reqs).output ∧
    (runMain true dir fs reqs).socketClosed = true := by
  refine ⟨rfl, ?_, rfl⟩
  simp [runMain, startupBanner]

/-- C10: the root rewrite compares the raw request target - query string
included - against the literal `/`.  A target that is `/` followed by a
query string is therefore not rewritten to the index document; after
the library strips the query it resolves to the root directory itself,
with the trailing-slash flag set (directory handling, not the
configured index document). -/
theorem query_root_not_rewritten (fs : FileSystem) (dir : List String) (p : String)
    (h1 : stripQueryFrag p = "/") (h2 : p ≠ "/") :
    rewriteRoot p = p ∧
    do_GET fs dir p = send_head fs dir p ∧
    translate_path dir p = (dir, true) := by
  refine ⟨?_, ?_, ?_⟩
  · unfold rewriteRoot
    rw [if_neg h2]
  · unfold do_GET rewriteRoot
    rw [if_neg h2]
  · unfold translate_path pathWords
    rw [h1]
    rfl

/-- C10 witness at the target `/?x=1`. -/
theorem query_root_not_rewritten_witness :
    rewriteRoot "/?x=1" = "/?x=1" ∧
    do_GET exampleFS exampleRoot "/?x=1" = send_head exampleFS exampleRoot "/?x=1" ∧
    translate_path exampleRoot "/?x=1" = (exampleRoot, true) :=
  query_root_not_rewritten exampleFS exampleRoot "/?x=1" (by decide) (by decide)
